import Mathlib

/-!
Verification of `terra_notebook_utils/drs.py` (DRS resolution and copy
orchestration) against its natural-language specification.

The Python module is shallowly embedded below: Python strings become
`List Char`, JSON values (the payloads returned by the resolver service)
become the inductive `Json`, raised exceptions become an explicit
`Except PyErr` result, and the external collaborators (token provider,
HTTP client, filesystem) become oracle function parameters.  Network side
effects are made observable through an explicit event trace (`Ev`).
-/

namespace TNU

/-- Python strings are modelled as lists of characters. -/
abbrev Str := List Char

/-- JSON values as returned by the resolver service.  Python `None` and
JSON `null` are identified (both are `Json.null`), exactly as in CPython
where `json.loads` maps `null` to `None`. -/
inductive Json where
  | null
  | bool (b : Bool)
  | num (n : Int)
  | str (s : Str)
  | arr (xs : List Json)
  | obj (kvs : List (Str × Json))

/-- Exceptions the embedded code can raise.  Messages that matter to the
spec are carried structurally (see `ResErr`); the remaining exception
classes are represented by bare tags. -/
inductive ResErr where
  /-- DRSResolutionError: no GS url found for the DRS uri. -/
  | noGsUrl (drs_url : Str)
  /-- DRSResolutionError: no metadata was returned for the DRS uri. -/
  | noMetadata (drs_url : Str)
  /-- DRSResolutionError: unexpected response, expected status 200; carries
  the observed status code and the best-effort error details text. -/
  | unexpectedStatus (status : Nat) (errorDetails : Str)
deriving DecidableEq

inductive PyErr where
  | assertionError
  | valueError
  | typeError
  | keyError
  | attributeError
  /-- RuntimeError raised by `_parse_gs_url` on a url missing the scheme. -/
  | runtimeError
  /-- jsonschema.ValidationError raised by `validate` in `copy_batch`. -/
  | validationError
  | drsResolutionError (e : ResErr)
deriving DecidableEq

/-- Observable side effects: token acquisition, the resolver POST, the
requester-pays PUT, and enqueueing a copy job on the copy client. -/
inductive Ev where
  | getToken
  | postMartha (url : Str)
  | putRawls (ns : Option Str) (name : Option Str)
  | submitJob (drs_uri : Str) (dst : Str)
deriving DecidableEq

/-- Modelled from the spec: the storage scheme constant `_GS_SCHEMA` is
imported by `drs.py` from the package root, which is not part of the
sources here; the spec's examples (`gs://bucket/key`) and the hard-coded
occurrences of `"gs://"` in `drs.py` itself fix its value. -/
def gsSchema : Str := "gs://".toList

/-- DRS scheme prefix checked by `get_drs_info`. -/
def drsSchema : Str := "drs://".toList

/-! ### Python dict / JSON primitives -/

/-- Lookup of a key in a JSON object's key/value list (first match, as in a
Python dict, which cannot carry duplicates). -/
def jLookup : List (Str × Json) → Str → Option Json
  | [], _ => none
  | (k, v) :: rest, key => if k = key then some v else jLookup rest key

/-- Does `needle` occur as a contiguous substring of `hay`?  Mirrors the
semantics of Python's `in` operator on strings. -/
def isSubstr (needle : Str) : Str → Bool
  | [] => needle.isEmpty
  | c :: t => needle.isPrefixOf (c :: t) || isSubstr needle t

/-- Python's `key in value` for the shapes a JSON value can take: key
membership on a dict, substring test on a string, element equality on a
list, and a TypeError otherwise. -/
def pyContains (j : Json) (k : Str) : Except PyErr Bool :=
  match j with
  | .obj kvs => .ok (jLookup kvs k).isSome
  | .str s => .ok (isSubstr k s)
  | .arr xs => .ok (xs.any fun x => match x with | .str s => decide (s = k) | _ => false)
  | _ => .error .typeError

/-- Python's `value[key]` with a string key: dict lookup (KeyError when
missing), TypeError on strings, lists and scalars. -/
def pySubscript (j : Json) (k : Str) : Except PyErr Json :=
  match j with
  | .obj kvs =>
    match jLookup kvs k with
    | some v => .ok v
    | none => .error .keyError
  | _ => .error .typeError

/-- Python's `value.get(key)`: only dicts have `.get`; a missing key gives
`None` (which is `Json.null` in this embedding). -/
def dictGet (j : Json) (k : Str) : Except PyErr Json :=
  match j with
  | .obj kvs => .ok ((jLookup kvs k).getD .null)
  | _ => .error .attributeError

/-- Python's iteration `for x in value`: list elements, characters of a
string, keys of a dict; TypeError otherwise. -/
def pyIter (j : Json) : Except PyErr (List Json) :=
  match j with
  | .arr xs => .ok xs
  | .str s => .ok (s.map fun c => .str [c])
  | .obj kvs => .ok (kvs.map fun p => .str p.1)
  | _ => .error .typeError

/-- Python truthiness of a JSON value. -/
def jtruthy : Json → Bool
  | .null => false
  | .bool b => b
  | .num n => n != 0
  | .str s => !s.isEmpty
  | .arr xs => !xs.isEmpty
  | .obj kvs => !kvs.isEmpty

/-- Truthiness of an `Optional[str]` argument (`None` and `""` are falsy). -/
def ostruthy : Option Str → Bool
  | none => false
  | some s => !s.isEmpty

/-! ### Python str() rendering of JSON values (f-string interpolation) -/

mutual
/-- Python `str(value)` for a JSON payload: strings render verbatim, `None`,
booleans and integers render as in CPython, containers render their elements
with `repr`. -/
def jsonStr : Json → Str
  | .null => "None".toList
  | .bool true => "True".toList
  | .bool false => "False".toList
  | .num n => (toString n).toList
  | .str s => s
  | .arr xs => '[' :: jsonSeq xs ++ [']']
  | .obj kvs => Char.ofNat 123 :: jsonKvs kvs ++ [Char.ofNat 125]

/-- Python `repr(value)`: like `str` except strings gain quotes. -/
def jsonRepr : Json → Str
  | .null => "None".toList
  | .bool true => "True".toList
  | .bool false => "False".toList
  | .num n => (toString n).toList
  | .str s => Char.ofNat 39 :: s ++ [Char.ofNat 39]
  | .arr xs => '[' :: jsonSeq xs ++ [']']
  | .obj kvs => Char.ofNat 123 :: jsonKvs kvs ++ [Char.ofNat 125]

/-- Comma-separated `repr` of list elements. -/
def jsonSeq : List Json → Str
  | [] => []
  | [x] => jsonRepr x
  | x :: xs => jsonRepr x ++ ", ".toList ++ jsonSeq xs

/-- Comma-separated `repr` of dict items. -/
def jsonKvs : List (Str × Json) → Str
  | [] => []
  | [(k, v)] => Char.ofNat 39 :: k ++ [Char.ofNat 39] ++ ": ".toList ++ jsonRepr v
  | (k, v) :: rest =>
    Char.ofNat 39 :: k ++ [Char.ofNat 39] ++ ": ".toList ++ jsonRepr v
      ++ ", ".toList ++ jsonKvs rest
end

/-! ### URL parsing (`_parse_gs_url`, `_bucket_name_and_key`) -/

/-- Python `s.split(c, 1)`: `(before, some after)` splits at the first
occurrence of `c`; `(s, none)` when `c` does not occur. -/
def splitOnce (c : Char) : Str → Str × Option Str
  | [] => ([], none)
  | x :: xs =>
    if x = c then ([], some xs)
    else
      let (a, b) := splitOnce c xs
      (x :: a, b)

/-- Embedding of `_parse_gs_url`: on the `gs://` scheme it unpacks
`split("/", 1)` into exactly two names, so a scheme-prefixed url without a
`/` raises ValueError (too few values to unpack); a url missing the scheme
raises RuntimeError (invalid gs url schema). -/
def parse_gs_url (gs_url : Str) : Except PyErr (Str × Str) :=
  if gsSchema.isPrefixOf gs_url then
    match splitOnce '/' (gs_url.drop gsSchema.length) with
    | (b, some k) => .ok (b, k)
    | (_, none) => .error .valueError
  else .error .runtimeError

/-- Embedding of `_bucket_name_and_key`: asserts the `gs://` prefix, then
splits once on `/`; when there is no `/`, or the part after it is empty,
the key is the empty string. -/
def bucket_name_and_key (gs_url : Str) : Except PyErr (Str × Str) :=
  if gsSchema.isPrefixOf gs_url then
    match splitOnce '/' (gs_url.drop 5) with
    | (b, none) => .ok (b, [])
    | (b, some k) => if k.isEmpty then .ok (b, []) else .ok (b, k)
  else .error .assertionError

/-! ### Canonical record and response normalization -/

/-- Embedding of the `DRSInfo` namedtuple.  The namedtuple is untyped; its
fields hold whatever JSON values the resolver returned, with `Json.null`
standing for Python `None`. -/
structure DRSInfo where
  credentials : Json
  access_url : Json
  bucket_name : Json
  key : Json
  name : Json
  size : Json
  updated : Json

def dosKey : Str := "dos".toList
def dataObjectKey : Str := "data_object".toList
def urlsKey : Str := "urls".toList
def urlKey : Str := "url".toList
def gsUriKey : Str := "gsUri".toList
def accessUrlKey : Str := "accessUrl".toList
def bucketKey : Str := "bucket".toList
def nameKey : Str := "name".toList
def fileNameKey : Str := "fileName".toList
def sizeKey : Str := "size".toList
def timeUpdatedKey : Str := "timeUpdated".toList
def updatedKey : Str := "updated".toList
def googleServiceAccountKey : Str := "googleServiceAccount".toList
def dataKey : Str := "data".toList
def responseKey : Str := "response".toList
def textKey : Str := "text".toList
def drsUriKey : Str := "drs_uri".toList
def dstKey : Str := "dst".toList

/-- Embedding of `_get_drs_gs_creds`: `response.get('googleServiceAccount')`,
and when that is not `None`, its `['data']` member (a KeyError when the
blob lacks `data`). -/
def get_drs_gs_creds (response : Json) : Except PyErr Json :=
  match dictGet response googleServiceAccountKey with
  | .error e => .error e
  | .ok .null => .ok .null
  | .ok sa => pySubscript sa dataKey

/-- Walk the `urls` candidate list of a legacy (martha_v2) data object: the
first entry having a `url` member whose string value starts with the storage
scheme is selected.  Mirrors the `for url_info in data_object['urls']` loop,
including the AttributeError when a candidate's `url` member is not a string
(`.startswith` on a non-string). -/
def findGsUrl : List Json → Except PyErr (Option Str)
  | [] => .ok none
  | u :: rest =>
    match pyContains u urlKey with
    | .error e => .error e
    | .ok false => findGsUrl rest
    | .ok true =>
      match pySubscript u urlKey with
      | .error e => .error e
      | .ok (.str s) => if gsSchema.isPrefixOf s then .ok (some s) else findGsUrl rest
      | .ok _ => .error .attributeError

/-- Embedding of `_drs_info_from_martha_v2`: requires a nested
`dos.data_object` record; requires a `urls` member; selects the first
storage-scheme candidate; parses it with `_parse_gs_url`; fills the
remaining fields from the data object's optional members. -/
def drs_info_from_martha_v2 (drs_url : Str) (drs_data : Json) : Except PyErr DRSInfo :=
  match pySubscript drs_data dosKey with
  | .error e => .error e
  | .ok dos =>
    match pyContains dos dataObjectKey with
    | .error e => .error e
    | .ok false => .error (.drsResolutionError (.noMetadata drs_url))
    | .ok true =>
      match pySubscript dos dataObjectKey with
      | .error e => .error e
      | .ok data_object =>
        match pyContains data_object urlsKey with
        | .error e => .error e
        | .ok false => .error (.drsResolutionError (.noGsUrl drs_url))
        | .ok true =>
          match pySubscript data_object urlsKey with
          | .error e => .error e
          | .ok urls =>
            match pyIter urls with
            | .error e => .error e
            | .ok items =>
              match findGsUrl items with
              | .error e => .error e
              | .ok none => .error (.drsResolutionError (.noGsUrl drs_url))
              | .ok (some data_url) =>
                match parse_gs_url data_url with
                | .error e => .error e
                | .ok (bn, key) =>
                  match get_drs_gs_creds drs_data with
                  | .error e => .error e
                  | .ok creds =>
                    match dictGet data_object nameKey with
                    | .error e => .error e
                    | .ok nm =>
                      match dictGet data_object sizeKey with
                      | .error e => .error e
                      | .ok sz =>
                        match dictGet data_object updatedKey with
                        | .error e => .error e
                        | .ok up =>
                          .ok ⟨creds, .null, .str bn, .str key, nm, sz, up⟩

/-- Embedding of `_drs_info_from_martha_v3`: requires the flat `gsUri`
member, then populates every canonical field directly from the flat members
(`bucket` for the bucket, `name` for the key, `fileName` for the display
name, `size`, `timeUpdated`), each defaulting to `None` when absent. -/
def drs_info_from_martha_v3 (drs_url : Str) (drs_data : Json) : Except PyErr DRSInfo :=
  match pyContains drs_data gsUriKey with
  | .error e => .error e
  | .ok false => .error (.drsResolutionError (.noGsUrl drs_url))
  | .ok true =>
    match get_drs_gs_creds drs_data with
    | .error e => .error e
    | .ok creds =>
      match dictGet drs_data accessUrlKey with
      | .error e => .error e
      | .ok au =>
        match dictGet drs_data bucketKey with
        | .error e => .error e
        | .ok bn =>
          match dictGet drs_data nameKey with
          | .error e => .error e
          | .ok ky =>
            match dictGet drs_data fileNameKey with
            | .error e => .error e
            | .ok nm =>
              match dictGet drs_data sizeKey with
              | .error e => .error e
              | .ok sz =>
                match dictGet drs_data timeUpdatedKey with
                | .error e => .error e
                | .ok up => .ok ⟨creds, au, bn, ky, nm, sz, up⟩

/-! ### Resolver client (`get_drs`) and `get_drs_info` -/

/-- An HTTP response from the resolver as the embedded code observes it:
the status code and the JSON value `resp.json()` yields.  (The HTTP client
and JSON decoding are external collaborators.) -/
structure HttpResp where
  status_code : Nat
  body : Json

/-- The error-details extraction of `get_drs` on a non-200 response: when
the body has a `response` member containing a `text` member, the details
are the literal `Error: ` followed by the interpolated text; otherwise the
empty string.  Membership and subscripting carry Python's semantics, so a
string-valued `response` member can raise a TypeError here. -/
def errorDetailsOf (rj : Json) : Except PyErr Str :=
  match pyContains rj responseKey with
  | .error e => .error e
  | .ok false => .ok []
  | .ok true =>
    match pySubscript rj responseKey with
    | .error e => .error e
    | .ok v =>
      match pyContains v textKey with
      | .error e => .error e
      | .ok false => .ok []
      | .ok true =>
        match pySubscript v textKey with
        | .error e => .error e
        | .ok t => .ok ("Error: ".toList ++ jsonStr t)

/-- Embedding of `get_drs`: obtain a token, POST the identifier to the
resolver (both recorded in the caller's trace, see `get_drs_info`), and on
any status other than 200 raise DRSResolutionError carrying the status code
and the extracted error details. -/
def get_drs (post : Str → HttpResp) (drs_url : Str) : Except PyErr HttpResp :=
  let resp := post drs_url
  if resp.status_code = 200 then .ok resp
  else
    match errorDetailsOf resp.body with
    | .error e => .error e
    | .ok details =>
      .error (.drsResolutionError (.unexpectedStatus resp.status_code details))

/-- Dispatch of `get_drs_info` after a successful resolver call: legacy
normalization when the body carries the `dos` marker, current normalization
otherwise. -/
def get_drs_info_result (post : Str → HttpResp) (drs_url : Str) : Except PyErr DRSInfo :=
  match get_drs post drs_url with
  | .error e => .error e
  | .ok resp =>
    match pyContains resp.body dosKey with
    | .error e => .error e
    | .ok true => drs_info_from_martha_v2 drs_url resp.body
    | .ok false => drs_info_from_martha_v3 drs_url resp.body

/-- Embedding of `get_drs_info`, with its observable network trace: the
assert on the `drs://` prefix fires before the token acquisition and the
resolver POST, so a bad identifier produces an empty trace. -/
def get_drs_info (post : Str → HttpResp) (drs_url : Str) :
    Except PyErr DRSInfo × List Ev :=
  if drsSchema.isPrefixOf drs_url then
    (get_drs_info_result post drs_url, [Ev.getToken, Ev.postMartha drs_url])
  else (.error .assertionError, [])

/-! ### Destination resolution -/

/-- Does the string end with the path separator `/`?  (`os.path.sep` on the
Linux deployment platform; also the literal used by `pfx.endswith`.) -/
def endsWithSlash (s : Str) : Bool :=
  match s.getLast? with
  | some c => c = '/'
  | none => false

/-- Python `s.rsplit("/", 1)[-1]`: the segment after the last `/`, or the
whole string when no `/` occurs. -/
def rsplitLast (s : Str) : Str :=
  (s.reverse.takeWhile fun c => c != '/').reverse

/-- The basename computation `info.name or info.key.rsplit("/", 1)[-1]`:
a truthy `name` wins; otherwise `.rsplit` is called on the key, which
raises AttributeError when the key is not a string. -/
def basenameOf (info : DRSInfo) : Except PyErr Json :=
  if jtruthy info.name then .ok info.name
  else
    match info.key with
    | .str s => .ok (.str (rsplitLast s))
    | _ => .error .attributeError

/-- Embedding of `_resolve_bucket_target`: parse the destination url; when
the parsed key is empty or ends with `/`, strip the trailing separator and
append the basename through f-string interpolation; otherwise the parsed
key is the destination key verbatim. -/
def resolveBucketTarget (url : Str) (info : DRSInfo) : Except PyErr (Str × Str) :=
  match bucket_name_and_key url with
  | .error e => .error e
  | .ok (bucket_name, pfx0) =>
    if pfx0.isEmpty || endsWithSlash pfx0 then
      let pfx := if endsWithSlash pfx0 then pfx0.dropLast else pfx0
      match basenameOf info with
      | .error e => .error e
      | .ok basename =>
        let bn := jsonStr basename
        .ok (bucket_name, if pfx.isEmpty then bn else pfx ++ '/' :: bn)
    else .ok (bucket_name, pfx0)

/-- Python `os.path.join` for the two-argument shapes used here: an
absolute second component replaces the first; otherwise a separator is
inserted unless one is already present. -/
def pathJoin (a b : Str) : Str :=
  match b with
  | '/' :: _ => b
  | _ => if endsWithSlash a then a ++ b else a ++ '/' :: b

/-- Embedding of `_resolve_local_target`: when the path ends with the
separator or names an existing directory (the filesystem is the `isdir` /
`abspath` oracle pair), append the derived filename; `os.path.join`
raises TypeError when the filename is not a string. -/
def resolveLocalTarget (isdir : Str → Bool) (abspath : Str → Str)
    (filepath : Str) (info : DRSInfo) : Except PyErr Str :=
  if endsWithSlash filepath || isdir filepath then
    match basenameOf info with
    | .error e => .error e
    | .ok (.str s) => .ok (pathJoin (abspath filepath) s)
    | .ok _ => .error .typeError
  else .ok filepath

/-! ### Requester-pays enabler -/

/-- The process-wide `lru_cache` on `enable_requester_pays`, keyed by the
argument pair. -/
abbrev RPCache := List (Option Str × Option Str)

/-- Embedding of `enable_requester_pays`: the `lru_cache` returns the
memoized result before any body code runs; on a miss the body asserts a
truthy workspace name, acquires a token and issues the rawls PUT.  A
non-204 status only logs a warning — the call still completes and is
cached.  The returned triple is (result, event trace, updated cache). -/
def enable_requester_pays (putStatus : Option Str → Option Str → Nat)
    (cache : RPCache) (workspace_name workspace_namespace : Option Str) :
    Except PyErr Unit × List Ev × RPCache :=
  if (workspace_name, workspace_namespace) ∈ cache then (.ok (), [], cache)
  else if ostruthy workspace_name then
    let _status := putStatus workspace_name workspace_namespace
    (.ok (), [Ev.getToken, Ev.putRawls workspace_namespace workspace_name],
      (workspace_name, workspace_namespace) :: cache)
  else (.error .assertionError, [], cache)

/-! ### Batch manifest validation and `copy_batch` -/

/-- Is the optional value a present JSON string? -/
def isStrVal : Option Json → Bool
  | some (.str _) => true
  | _ => false

/-- One manifest entry against `manifest_schema`'s item schema: an object
whose required `drs_uri` and `dst` members are present and are strings. -/
def entryValid : Json → Bool
  | .obj kvs => isStrVal (jLookup kvs drsUriKey) && isStrVal (jLookup kvs dstKey)
  | _ => false

/-- The whole manifest against `manifest_schema`: an array whose every item
satisfies the item schema. -/
def manifestValid : Json → Bool
  | .arr items => items.all entryValid
  | _ => false

/-- Field extraction `item['drs_uri']` / `item['dst']` for a validated
entry; the defaults are unreachable once `entryValid` holds (Python would
raise a KeyError on them, but `copy_batch` only reaches this point after
`validate` has succeeded). -/
def strField (j : Json) (k : Str) : Str :=
  match j with
  | .obj kvs =>
    match jLookup kvs k with
    | some (.str s) => s
    | _ => []
  | _ => []

/-- The enqueue loop of `copy_batch`: one `submitJob` event per manifest
entry, in order.  Enqueueing performs no network activity; workers execute
jobs later through the external copy client. -/
def manifestJobs : List Json → List Ev
  | [] => []
  | it :: rest => Ev.submitJob (strField it drsUriKey) (strField it dstKey) :: manifestJobs rest

/-- Embedding of `copy_batch`: `jsonschema.validate` runs first and raises
on a malformed manifest before any other statement; then requester-pays
enablement; then each entry is enqueued on the copy client. -/
def copy_batch (putStatus : Option Str → Option Str → Nat) (cache : RPCache)
    (manifest : Json) (workspace_name workspace_namespace : Option Str) :
    Except PyErr Unit × List Ev × RPCache :=
  if manifestValid manifest then
    match enable_requester_pays putStatus cache workspace_name workspace_namespace with
    | (.error e, evs, c2) => (.error e, evs, c2)
    | (.ok _, evs, c2) =>
      match manifest with
      | .arr items => (.ok (), evs ++ manifestJobs items, c2)
      | _ => (.error .typeError, evs, c2)
  else (.error .validationError, [], cache)

/-! ### The copy worker (`_do_copy_drs`) -/

/-- Embedding of `_do_copy_drs`: resolve the identifier and build the
source blob; a `gs://` destination is resolved against the already-obtained
info, while any other destination resolves the same identifier a second
time to compute the local filename.  Blob construction and the byte
transfer are external collaborators and add no events. -/
def do_copy_drs (post : Str → HttpResp) (isdir : Str → Bool) (abspath : Str → Str)
    (drs_uri dst : Str) : Except PyErr Unit × List Ev :=
  match get_drs_info post drs_uri with
  | (.error e, evs) => (.error e, evs)
  | (.ok src_info, evs) =>
    if gsSchema.isPrefixOf dst then
      (match resolveBucketTarget dst src_info with
       | .error e => .error e
       | .ok _ => .ok (), evs)
    else
      match get_drs_info post drs_uri with
      | (.error e, evs2) => (.error e, evs ++ evs2)
      | (.ok info, evs2) =>
        (match resolveLocalTarget isdir abspath dst info with
         | .error e => .error e
         | .ok _ => .ok (), evs ++ evs2)

/-! ### Trace observations -/

/-- Number of resolver POSTs in a trace. -/
def countMartha (evs : List Ev) : Nat :=
  (evs.filter fun e => match e with | .postMartha _ => true | _ => false).length

/-- Number of requester-pays PUTs in a trace. -/
def countRawls (evs : List Ev) : Nat :=
  (evs.filter fun e => match e with | .putRawls _ _ => true | _ => false).length

/-- Number of enqueued copy jobs in a trace. -/
def countJobs (evs : List Ev) : Nat :=
  (evs.filter fun e => match e with | .submitJob _ _ => true | _ => false).length

/-! ### Helper lemmas -/

theorem isPrefixOf_append_self (a b : Str) : a.isPrefixOf (a ++ b) = true := by
  simp [List.isPrefixOf_iff_prefix]

theorem splitOnce_not_mem (c : Char) : ∀ s : Str, c ∉ s → splitOnce c s = (s, none)
  | [], _ => rfl
  | x :: xs, h => by
    rw [List.mem_cons, not_or] at h
    simp [splitOnce, Ne.symm h.1, splitOnce_not_mem c xs h.2]

theorem splitOnce_append (c : Char) : ∀ a b : Str, c ∉ a →
    splitOnce c (a ++ c :: b) = (a, some b)
  | [], b, _ => by simp [splitOnce]
  | x :: xs, b, h => by
    rw [List.mem_cons, not_or] at h
    simp [splitOnce, Ne.symm h.1, splitOnce_append c xs b h.2]

theorem drop5_gsSchema (r : Str) : (gsSchema ++ r).drop 5 = r :=
  List.drop_left' (by rfl)

theorem gsSchema_length : gsSchema.length = 5 := rfl

/-- Whenever `findGsUrl` selects a candidate, that candidate starts with the
storage scheme. -/
theorem findGsUrl_prefix : ∀ (items : List Json) (u : Str),
    findGsUrl items = .ok (some u) → gsSchema.isPrefixOf u = true := by
  intro items
  induction items with
  | nil => intro u h; simp [findGsUrl] at h
  | cons it rest ih =>
    intro u h
    unfold findGsUrl at h
    split at h
    · exact absurd h (by simp)
    · exact ih u h
    · split at h
      · exact absurd h (by simp)
      · split at h
        · rename_i hp
          cases h
          exact hp
        · exact ih u h
      · exact absurd h (by simp)

/-! ### C3: the bucket-URL parser -/

/-- C3: for every url carrying the storage scheme, `_bucket_name_and_key`
splits on the first slash after the scheme into (bucket, key); with no slash
after the scheme the key is empty; and for every url missing the scheme both
parsers fail (`_bucket_name_and_key` via its assert, `_parse_gs_url` with
the invalid-gs-url RuntimeError). -/
theorem c3_bucket_url_parsing :
    (∀ bucket key : Str, '/' ∉ bucket →
       bucket_name_and_key (gsSchema ++ bucket ++ '/' :: key) = .ok (bucket, key))
  ∧ (∀ bucket : Str, '/' ∉ bucket →
       bucket_name_and_key (gsSchema ++ bucket) = .ok (bucket, []))
  ∧ (∀ s : Str, gsSchema.isPrefixOf s = false →
       bucket_name_and_key s = .error .assertionError
       ∧ parse_gs_url s = .error .runtimeError) := by
  refine ⟨?_, ?_, ?_⟩
  · intro bucket key h
    have hpre := isPrefixOf_append_self gsSchema (bucket ++ '/' :: key)
    rw [← List.append_assoc] at hpre
    have hdrop : (gsSchema ++ bucket ++ '/' :: key).drop 5 = bucket ++ '/' :: key := by
      rw [List.append_assoc]; exact drop5_gsSchema _
    simp only [bucket_name_and_key, hpre, if_true, hdrop, splitOnce_append '/' bucket key h]
    cases key <;> simp
  · intro bucket h
    have hpre := isPrefixOf_append_self gsSchema bucket
    simp only [bucket_name_and_key, hpre, if_true, drop5_gsSchema,
      splitOnce_not_mem '/' bucket h]
  · intro s h
    constructor <;> simp [bucket_name_and_key, parse_gs_url, h]

/-- Witness for C3 at concrete urls. -/
theorem c3_bucket_url_parsing_witness :
    bucket_name_and_key ("gs://bucket/sub/key.txt".toList) =
      .ok ("bucket".toList, "sub/key.txt".toList)
    ∧ bucket_name_and_key ("gs://bucket".toList) = .ok ("bucket".toList, [])
    ∧ bucket_name_and_key ("s3://x".toList) = .error .assertionError
    ∧ parse_gs_url ("s3://x".toList) = .error .runtimeError :=
  ⟨c3_bucket_url_parsing.1 ("bucket".toList) ("sub/key.txt".toList) (by decide),
   c3_bucket_url_parsing.2.1 ("bucket".toList) (by decide),
   (c3_bucket_url_parsing.2.2 ("s3://x".toList) (by decide)).1,
   (c3_bucket_url_parsing.2.2 ("s3://x".toList) (by decide)).2⟩

/-! ### C10: the legacy path is not total on scheme-prefixed urls without a key -/

/-- C10: for every legacy response whose nested data object's selected
storage-scheme candidate has no slash after the scheme, normalization
raises ValueError (the failed tuple unpack inside `_parse_gs_url`), which
is not a DRSResolutionError. -/
theorem c10_v2_unpack_value_error (url : Str) (kvs doskvs dokvs : List (Str × Json))
    (items : List Json) (u : Str)
    (hdos : jLookup kvs dosKey = some (.obj doskvs))
    (hdo : jLookup doskvs dataObjectKey = some (.obj dokvs))
    (hurls : jLookup dokvs urlsKey = some (.arr items))
    (hfind : findGsUrl items = .ok (some u))
    (hnoslash : '/' ∉ u.drop 5) :
    drs_info_from_martha_v2 url (.obj kvs) = .error .valueError
    ∧ ∀ r, PyErr.valueError ≠ PyErr.drsResolutionError r := by
  have hpre := findGsUrl_prefix items u hfind
  refine ⟨?_, fun r => by simp⟩
  simp [drs_info_from_martha_v2, pySubscript, pyContains, pyIter, hdos, hdo, hurls, hfind,
    parse_gs_url, hpre, gsSchema_length, splitOnce_not_mem '/' (u.drop 5) hnoslash]

/-- Witness for C10: the candidate list `[gs://bucket]` (no key part). -/
theorem c10_v2_unpack_value_error_witness :
    drs_info_from_martha_v2 ("drs://a".toList)
      (.obj [(dosKey, .obj [(dataObjectKey, .obj [(urlsKey,
        .arr [.obj [(urlKey, .str ("gs://bucket".toList))]])])])]) =
      .error .valueError :=
  (c10_v2_unpack_value_error ("drs://a".toList)
    [(dosKey, .obj [(dataObjectKey, .obj [(urlsKey,
        .arr [.obj [(urlKey, .str ("gs://bucket".toList))]])])])]
    [(dataObjectKey, .obj [(urlsKey, .arr [.obj [(urlKey, .str ("gs://bucket".toList))]])])]
    [(urlsKey, .arr [.obj [(urlKey, .str ("gs://bucket".toList))]])]
    [.obj [(urlKey, .str ("gs://bucket".toList))]]
    ("gs://bucket".toList)
    rfl rfl rfl rfl (by decide)).1

/-! ### C2: legacy (martha_v2) normalization -/

def c2ExampleUrls : List Json :=
  [.obj [(urlKey, .str ("s3://x".toList))], .obj [(urlKey, .str ("gs://bucket/key".toList))]]
def c2ExampleDO : List (Str × Json) := [(urlsKey, .arr c2ExampleUrls)]
def c2ExampleDos : List (Str × Json) := [(dataObjectKey, .obj c2ExampleDO)]
def c2ExampleKvs : List (Str × Json) := [(dosKey, .obj c2ExampleDos)]

/-- C2: for a legacy response with a nested data-object record: an absent
`urls` list fails with DRSResolutionError; a list with no storage-scheme
candidate fails with DRSResolutionError; otherwise the first storage-scheme
candidate is selected and parsed into bucket/key; on the spec's example list
`[s3://x, gs://bucket/key]` the result has bucket `bucket` and key `key`. -/
theorem c2_v2_normalization (url : Str) (kvs doskvs dokvs : List (Str × Json))
    (hdos : jLookup kvs dosKey = some (.obj doskvs))
    (hdo : jLookup doskvs dataObjectKey = some (.obj dokvs)) :
    (jLookup dokvs urlsKey = none →
       drs_info_from_martha_v2 url (.obj kvs) = .error (.drsResolutionError (.noGsUrl url)))
  ∧ (∀ items, jLookup dokvs urlsKey = some (.arr items) →
       (findGsUrl items = .ok none →
          drs_info_from_martha_v2 url (.obj kvs) = .error (.drsResolutionError (.noGsUrl url)))
       ∧ (∀ u b k c, findGsUrl items = .ok (some u) → parse_gs_url u = .ok (b, k) →
            get_drs_gs_creds (.obj kvs) = .ok c →
            drs_info_from_martha_v2 url (.obj kvs) =
              .ok ⟨c, .null, .str b, .str k, (jLookup dokvs nameKey).getD .null,
                   (jLookup dokvs sizeKey).getD .null, (jLookup dokvs updatedKey).getD .null⟩))
  ∧ drs_info_from_martha_v2 ("drs://a".toList) (.obj c2ExampleKvs) =
      .ok ⟨.null, .null, .str ("bucket".toList), .str ("key".toList), .null, .null, .null⟩ := by
  refine ⟨?_, ?_, rfl⟩
  · intro hurls
    simp [drs_info_from_martha_v2, pySubscript, pyContains, hdos, hdo, hurls]
  · intro items hurls
    constructor
    · intro hfind
      simp [drs_info_from_martha_v2, pySubscript, pyContains, pyIter, hdos, hdo, hurls, hfind]
    · intro u b k c hfind hparse hcreds
      simp [drs_info_from_martha_v2, pySubscript, pyContains, pyIter, dictGet,
        hdos, hdo, hurls, hfind, hparse, hcreds]

/-- Witness for C2: the general selection clause applied to the spec's
example candidate list. -/
theorem c2_v2_normalization_witness :
    drs_info_from_martha_v2 ("drs://a".toList) (.obj c2ExampleKvs) =
      .ok ⟨.null, .null, .str ("bucket".toList), .str ("key".toList), .null, .null, .null⟩ :=
  ((c2_v2_normalization ("drs://a".toList) c2ExampleKvs c2ExampleDos c2ExampleDO
      rfl rfl).2.1 c2ExampleUrls rfl).2
    ("gs://bucket/key".toList) ("bucket".toList) ("key".toList) .null rfl rfl rfl

/-! ### C1: current (martha_v3) normalization -/

/-- C1 counterexample: a current-shape response in which `gsUri` is
`gs://A/B` while the flat `bucket` and `name` members are `C` and `D`.
Normalization succeeds and copies the flat members, so the resulting bucket
and key (`C`, `D`) differ from the bucket/key obtained by splitting `gsUri`
(`A`, `B`), refuting the claim that bucket and key come from splitting
`gsUri`. -/
theorem c1_counterexample :
    drs_info_from_martha_v3 ("drs://u".toList)
      (.obj [(gsUriKey, .str ("gs://A/B".toList)), (bucketKey, .str ("C".toList)),
             (nameKey, .str ("D".toList)), (fileNameKey, .str ("E".toList))]) =
      .ok ⟨.null, .null, .str ("C".toList), .str ("D".toList), .str ("E".toList), .null, .null⟩
    ∧ parse_gs_url ("gs://A/B".toList) = .ok ("A".toList, "B".toList)
    ∧ "C".toList ≠ "A".toList ∧ "D".toList ≠ "B".toList :=
  ⟨rfl, rfl, by decide, by decide⟩

/-- C1 amended: an absent `gsUri` fails with DRSResolutionError; present,
the canonical record copies the flat members verbatim — `bucket` into
bucket_name, `name` into key, `fileName` into name, plus `accessUrl`,
`size` and `timeUpdated` — each defaulting to None when absent (bucket and
key are not derived by splitting `gsUri`). -/
theorem c1_v3_normalization (url : Str) (kvs : List (Str × Json)) :
    (jLookup kvs gsUriKey = none →
       drs_info_from_martha_v3 url (.obj kvs) = .error (.drsResolutionError (.noGsUrl url)))
  ∧ (∀ g c, jLookup kvs gsUriKey = some g → get_drs_gs_creds (.obj kvs) = .ok c →
       drs_info_from_martha_v3 url (.obj kvs) =
         .ok ⟨c, (jLookup kvs accessUrlKey).getD .null, (jLookup kvs bucketKey).getD .null,
              (jLookup kvs nameKey).getD .null, (jLookup kvs fileNameKey).getD .null,
              (jLookup kvs sizeKey).getD .null, (jLookup kvs timeUpdatedKey).getD .null⟩) := by
  constructor
  · intro h
    simp [drs_info_from_martha_v3, pyContains, h]
  · intro g c hg hc
    simp [drs_info_from_martha_v3, pyContains, dictGet, hg, hc]

/-- Witness for C1's amended statement at a concrete current-shape body. -/
theorem c1_v3_normalization_witness :
    drs_info_from_martha_v3 ("drs://u".toList)
      (.obj [(gsUriKey, .str ("gs://b/k".toList)), (bucketKey, .str ("b".toList))]) =
      .ok ⟨.null, .null, .str ("b".toList), .null, .null, .null, .null⟩ :=
  (c1_v3_normalization ("drs://u".toList)
      [(gsUriKey, .str ("gs://b/k".toList)), (bucketKey, .str ("b".toList))]).2
    (.str ("gs://b/k".toList)) .null rfl rfl

/-! ### C4: destination resolution against a bucket url -/

/-- Directory-style destination key exactly as the claim words it: strip the
trailing separator from the parsed key and append the basename as the final
key component. -/
def claimDirKey (pfx bn : Str) : Str :=
  let p := if endsWithSlash pfx then pfx.dropLast else pfx
  if p.isEmpty then bn else p ++ '/' :: bn

def c4InfoF : DRSInfo :=
  ⟨.null, .null, .null, .str ("src/key.bin".toList), .str ("f.txt".toList), .null, .null⟩

/-- C4: when the parsed destination key is empty or ends with `/`,
`_resolve_bucket_target` strips the trailing separator and appends the
info's name — falling back to the last `/`-separated segment of the info's
key when the name is absent — as the final key component; otherwise the
parsed key is returned verbatim.  In particular `gs://dst/` with name
`f.txt` gives (dst, f.txt) and `gs://dst/sub/path.txt` gives
(dst, sub/path.txt). -/
theorem c4_resolve_bucket_target (url : Str) (info : DRSInfo) (b pfx : Str)
    (hbk : bucket_name_and_key url = .ok (b, pfx)) :
    (pfx.isEmpty = false → endsWithSlash pfx = false →
       resolveBucketTarget url info = .ok (b, pfx))
  ∧ (∀ n : Str, info.name = .str n → n.isEmpty = false →
       (pfx.isEmpty = true ∨ endsWithSlash pfx = true) →
       resolveBucketTarget url info = .ok (b, claimDirKey pfx n))
  ∧ (info.name = .null → ∀ s : Str, info.key = .str s →
       (pfx.isEmpty = true ∨ endsWithSlash pfx = true) →
       resolveBucketTarget url info = .ok (b, claimDirKey pfx (rsplitLast s)))
  ∧ resolveBucketTarget ("gs://dst/".toList) c4InfoF = .ok ("dst".toList, "f.txt".toList)
  ∧ resolveBucketTarget ("gs://dst/sub/path.txt".toList) c4InfoF =
      .ok ("dst".toList, "sub/path.txt".toList) := by
  refine ⟨?_, ?_, ?_, rfl, rfl⟩
  · intro h1 h2
    simp [resolveBucketTarget, hbk, h1, h2]
  · intro n hn hne hdir
    rcases hdir with h | h
    · have hnil : pfx = [] := by
        cases pfx with
        | nil => rfl
        | cons x xs => simp at h
      subst hnil
      simp [resolveBucketTarget, hbk, basenameOf, jtruthy, hne, hn, jsonStr, claimDirKey,
        endsWithSlash]
    · simp [resolveBucketTarget, hbk, h, basenameOf, jtruthy, hne, hn, jsonStr, claimDirKey]
  · intro hname s hkey hdir
    rcases hdir with h | h
    · have hnil : pfx = [] := by
        cases pfx with
        | nil => rfl
        | cons x xs => simp at h
      subst hnil
      simp [resolveBucketTarget, hbk, basenameOf, jtruthy, hname, hkey, jsonStr, claimDirKey,
        endsWithSlash]
    · simp [resolveBucketTarget, hbk, h, basenameOf, jtruthy, hname, hkey, jsonStr, claimDirKey]

/-- Witness for C4: the directory-style clause at `gs://dst/` with a named
info. -/
theorem c4_resolve_bucket_target_witness :
    resolveBucketTarget ("gs://dst/".toList) c4InfoF = .ok ("dst".toList, "f.txt".toList) :=
  (c4_resolve_bucket_target ("gs://dst/".toList) c4InfoF ("dst".toList) [] rfl).2.1
    ("f.txt".toList) rfl rfl (Or.inl rfl)

/-! ### C5: the resolver client on non-200 responses -/

/-- Classifier for the exception class: is it a DRSResolutionError? -/
def isDrsResolutionError : PyErr → Bool
  | .drsResolutionError _ => true
  | _ => false

def c5CexPost : Str → HttpResp := fun _ => ⟨500, .obj [(responseKey, .str ("context".toList))]⟩

/-- C5 counterexample: a 500 response whose body is the JSON object with
member `response` equal to the string `context`.  Python's `'text' in
'context'` substring test succeeds, and the subsequent string subscript
raises TypeError — `get_drs` fails with TypeError, not with
DRSResolutionError, refuting the claim for this response. -/
theorem c5_counterexample :
    get_drs c5CexPost ("drs://x".toList) = .error .typeError
    ∧ isDrsResolutionError .typeError = false :=
  ⟨rfl, rfl⟩

/-- The best-effort error text as the spec words it: the nested
`response.text` member rendered after the literal `Error: ` when present,
else the empty string. -/
def specErrorText (kvs : List (Str × Json)) : Str :=
  match jLookup kvs responseKey with
  | some (.obj kvs2) =>
    match jLookup kvs2 textKey with
    | some t => "Error: ".toList ++ jsonStr t
    | none => []
  | _ => []

/-- C5 amended: for every resolver response with status other than 200
whose JSON body is an object and whose `response` member, when present, is
itself an object, `get_drs` fails with DRSResolutionError carrying the
observed status code and the best-effort error text (`Error: ` plus the
nested `response.text` member, or the empty string when there is none). -/
theorem c5_get_drs_error (post : Str → HttpResp) (url : Str) (kvs : List (Str × Json))
    (hstatus : (post url).status_code ≠ 200)
    (hbody : (post url).body = .obj kvs)
    (hresp : ∀ v, jLookup kvs responseKey = some v → ∃ kvs2, v = Json.obj kvs2) :
    get_drs post url =
      .error (.drsResolutionError
        (.unexpectedStatus (post url).status_code (specErrorText kvs))) := by
  have hdet : errorDetailsOf (.obj kvs) = .ok (specErrorText kvs) := by
    unfold errorDetailsOf specErrorText
    cases hr : jLookup kvs responseKey with
    | none => simp [pyContains, hr]
    | some v =>
      obtain ⟨kvs2, rfl⟩ := hresp v hr
      cases ht : jLookup kvs2 textKey with
      | none => simp [pyContains, pySubscript, hr, ht]
      | some t => simp [pyContains, pySubscript, hr, ht]
  simp [get_drs, hstatus, hbody, hdet]

def c5OkPost : Str → HttpResp :=
  fun _ => ⟨500, .obj [(responseKey, .obj [(textKey, .str ("boom".toList))])]⟩

/-- Witness for C5's amended statement: a 500 with an extractable
`response.text`. -/
theorem c5_get_drs_error_witness :
    get_drs c5OkPost ("drs://x".toList) =
      .error (.drsResolutionError (.unexpectedStatus 500 ("Error: boom".toList))) :=
  c5_get_drs_error c5OkPost ("drs://x".toList)
    [(responseKey, .obj [(textKey, .str ("boom".toList))])]
    (by decide) rfl
    (fun v hv => ⟨[(textKey, .str ("boom".toList))], (Option.some.inj hv).symm⟩)

/-! ### C6: non-DRS identifiers fail before any network activity -/

/-- C6: for every identifier not starting with `drs://`, `get_drs_info`
raises the assertion immediately and its network trace is empty — no token
acquisition and no resolver POST occurs. -/
theorem c6_bad_prefix_no_network (post : Str → HttpResp) (url : Str)
    (h : drsSchema.isPrefixOf url = false) :
    get_drs_info post url = (.error .assertionError, []) := by
  simp [get_drs_info, h]

/-- Witness for C6 at the identifier `gs://x`. -/
theorem c6_bad_prefix_no_network_witness :
    get_drs_info (fun _ => ⟨200, .null⟩) ("gs://x".toList) = (.error .assertionError, []) :=
  c6_bad_prefix_no_network (fun _ => ⟨200, .null⟩) ("gs://x".toList) (by decide)

/-! ### C7: batch manifest validation is atomic and pre-flight -/

/-- C7: a manifest rejected by the schema makes `copy_batch` raise the
validation error with an empty event trace and an unchanged requester-pays
cache — no enablement call and zero jobs enqueued; and any manifest
containing an entry without a `dst` member is rejected by the schema. -/
theorem c7_copy_batch_validation (putStatus : Option Str → Option Str → Nat)
    (cache : RPCache) (manifest : Json) (wn wns : Option Str) :
    (manifestValid manifest = false →
       copy_batch putStatus cache manifest wn wns = (.error .validationError, [], cache))
  ∧ (∀ pre post : List Json, ∀ kvs : List (Str × Json), jLookup kvs dstKey = none →
       manifestValid (.arr (pre ++ .obj kvs :: post)) = false) := by
  constructor
  · intro h
    simp [copy_batch, h]
  · intro pre post kvs h
    simp [manifestValid, entryValid, h, isStrVal]

/-- Witness for C7: a one-entry manifest missing `dst`. -/
theorem c7_copy_batch_validation_witness :
    copy_batch (fun _ _ => 204) [] (.arr [.obj [(drsUriKey, .str ("drs://a".toList))]])
      (some ("w".toList)) (some ("ns".toList)) = (.error .validationError, [], [])
    ∧ manifestValid (.arr ([] ++ .obj [(drsUriKey, .str ("drs://a".toList))] :: [])) = false :=
  ⟨(c7_copy_batch_validation (fun _ _ => 204) [] (.arr [.obj [(drsUriKey,
      .str ("drs://a".toList))]]) (some ("w".toList)) (some ("ns".toList))).1 rfl,
   (c7_copy_batch_validation (fun _ _ => 204) [] (.arr [.obj [(drsUriKey,
      .str ("drs://a".toList))]]) (some ("w".toList)) (some ("ns".toList))).2
     [] [] [(drsUriKey, .str ("drs://a".toList))] rfl⟩

/-! ### C8: requester-pays enablement is memoized per argument pair -/

/-- C8: starting from an empty cache with a truthy workspace name, the
first `enable_requester_pays` call issues exactly one rawls PUT; repeating
the call with the same (name, namespace) pair issues none; calling with a
different pair issues one more. -/
theorem c8_requester_pays_memoized (putStatus : Option Str → Option Str → Nat)
    (a b a2 b2 : Option Str) (h1 : ostruthy a = true) (h2 : ostruthy a2 = true)
    (hne : (a2, b2) ≠ (a, b)) :
    countRawls (enable_requester_pays putStatus [] a b).2.1 = 1
    ∧ countRawls (enable_requester_pays putStatus
        (enable_requester_pays putStatus [] a b).2.2 a b).2.1 = 0
    ∧ countRawls (enable_requester_pays putStatus
        (enable_requester_pays putStatus [] a b).2.2 a2 b2).2.1 = 1 := by
  have e1 : enable_requester_pays putStatus [] a b =
      (.ok (), [Ev.getToken, Ev.putRawls b a], [(a, b)]) := by
    simp [enable_requester_pays, h1]
  refine ⟨by rw [e1]; rfl, ?_, ?_⟩
  · rw [e1]
    simp [enable_requester_pays, countRawls]
  · rw [e1]
    simp [enable_requester_pays, countRawls, hne, h2]

/-- Witness for C8 at concrete workspace pairs. -/
theorem c8_requester_pays_memoized_witness :
    countRawls (enable_requester_pays (fun _ _ => 204) []
      (some ("w".toList)) (some ("ns".toList))).2.1 = 1
    ∧ countRawls (enable_requester_pays (fun _ _ => 204)
        (enable_requester_pays (fun _ _ => 204) []
          (some ("w".toList)) (some ("ns".toList))).2.2
        (some ("w".toList)) (some ("ns".toList))).2.1 = 0
    ∧ countRawls (enable_requester_pays (fun _ _ => 204)
        (enable_requester_pays (fun _ _ => 204) []
          (some ("w".toList)) (some ("ns".toList))).2.2
        (some ("w2".toList)) (some ("ns".toList))).2.1 = 1 :=
  c8_requester_pays_memoized (fun _ _ => 204)
    (some ("w".toList)) (some ("ns".toList)) (some ("w2".toList)) (some ("ns".toList))
    (by decide) (by decide) (by decide)

/-! ### C9: resolution count per copy job -/

/-- When `get_drs_info` succeeds, its trace is exactly one token acquisition
followed by one resolver POST. -/
theorem get_drs_info_ok_trace (post : Str → HttpResp) (url : Str) (info : DRSInfo)
    (evs : List Ev) (h : get_drs_info post url = (.ok info, evs)) :
    evs = [Ev.getToken, Ev.postMartha url] := by
  unfold get_drs_info at h
  split at h
  · injection h with h1 h2
    exact h2.symm
  · injection h with h1 h2
    exact absurd h1 (by simp)

/-- C9: a copy job whose resolution succeeds issues exactly one resolver
call when the destination starts with the bucket scheme, and exactly two
(the second computes the local destination filename) otherwise. -/
theorem c9_copy_worker_resolution_count (post : Str → HttpResp) (isdir : Str → Bool)
    (abspath : Str → Str) (drs_uri dst : Str) (info : DRSInfo) (evs : List Ev)
    (h : get_drs_info post drs_uri = (.ok info, evs)) :
    countMartha (do_copy_drs post isdir abspath drs_uri dst).2 =
      if gsSchema.isPrefixOf dst then 1 else 2 := by
  have hevs := get_drs_info_ok_trace post drs_uri info evs h
  subst hevs
  unfold do_copy_drs
  rw [h]
  by_cases hd : gsSchema.isPrefixOf dst = true
  · simp [hd, countMartha]
  · simp [hd, h, countMartha]

def c9Post : Str → HttpResp := fun _ => ⟨200, .obj [(gsUriKey, .str ("gs://b/k".toList)),
  (bucketKey, .str ("b".toList)), (nameKey, .str ("k".toList)),
  (fileNameKey, .str ("f.txt".toList))]⟩

/-- Witness for C9: one resolution for a `gs://` destination, two for a
local destination. -/
theorem c9_copy_worker_resolution_count_witness :
    countMartha (do_copy_drs c9Post (fun _ => false) (fun s => s)
      ("drs://a".toList) ("gs://dst/x".toList)).2 = 1
    ∧ countMartha (do_copy_drs c9Post (fun _ => false) (fun s => s)
      ("drs://a".toList) ("/tmp/x".toList)).2 = 2 :=
  ⟨c9_copy_worker_resolution_count c9Post (fun _ => false) (fun s => s)
      ("drs://a".toList) ("gs://dst/x".toList)
      ⟨.null, .null, .str ("b".toList), .str ("k".toList), .str ("f.txt".toList), .null, .null⟩
      [Ev.getToken, Ev.postMartha ("drs://a".toList)] rfl,
   c9_copy_worker_resolution_count c9Post (fun _ => false) (fun s => s)
      ("drs://a".toList) ("/tmp/x".toList)
      ⟨.null, .null, .str ("b".toList), .str ("k".toList), .str ("f.txt".toList), .null, .null⟩
      [Ev.getToken, Ev.postMartha ("drs://a".toList)] rfl⟩

end TNU
